import Mathlib

/-!
Shallow embedding of the wasmCloud `provider-sqldb-postgres` provider
(`src/crates/provider-sqldb-postgres/src/lib.rs`) and proofs about its
registry-lifecycle behaviour.

The provider keeps two registries guarded by reader/writer locks:
`connections : HashMap<String, Pool>` (source id -> connection pool) and
`prepared_statements : HashMap<PreparedStatementToken, (Statement, String)>`
(token -> (statement, owning source id)).  Sequential operations on those
registries are embedded as pure functions over an explicit `ProviderState`;
the racy `ensure_pool` path is additionally embedded as an interleaving
small-step system.  Backend I/O (checking a client out of a pool, running a
query, preparing or executing a statement against Postgres) is abstracted as
oracle function parameters: the embedding is exact up to the registry logic,
which is what the claims are about.

Pools and parsed statements are opaque heap objects in the Rust code; the
embedding identifies each by the `Nat` drawn from a fresh counter at its
creation, so that "same pool instance" is expressible.
-/

namespace PostgresProvider

/-- Association-list lookup with `HashMap::get` semantics: the first binding
for the key, if any.  The Rust `HashMap` never holds two bindings for one
key; states built by the operations below preserve that as well. -/
def mapGet {α : Type} (m : List (String × α)) (k : String) : Option α :=
  (m.find? (fun p => p.1 == k)).map (fun p => p.2)

/-- `HashMap::insert` semantics: the new binding replaces any old binding of
the same key. -/
def mapInsert {α : Type} (k : String) (v : α) (m : List (String × α)) :
    List (String × α) :=
  (k, v) :: m.filter (fun p => decide (p.1 ≠ k))

/-- The keys of a registry are pairwise distinct — the representation
invariant of the Rust `HashMap` backing it. -/
def KeysNodup {α : Type} (m : List (String × α)) : Prop :=
  (m.map (fun p => p.1)).Nodup

instance {α : Type} (m : List (String × α)) : Decidable (KeysNodup m) := by
  unfold KeysNodup; infer_instance

/-- Modelled from the spec: the protocol's tagged value union (`PgValue` in
the generated `bindings` module, which is outside `src/`): "a tagged union
covering at minimum null, boolean, integer, floating point, text, byte
sequence".  Only the tags needed by the claims are listed; none of the
claims below inspects a value. -/
inductive PgValue
  | null
  | boolean (b : Bool)
  | integer (i : Int)
  | text (s : String)
  | bytes (bs : List Nat)
deriving Repr, DecidableEq

/-- A result row: an ordered sequence of values (`ResultRow` in `bindings`). -/
def ResultRow := List PgValue

instance : DecidableEq ResultRow := by unfold ResultRow; infer_instance

/-- Error type of the `query` interface.  The provider code constructs only
the `Unexpected(String)` case of the generated variant. -/
inductive QueryError
  | unexpected (msg : String)
deriving Repr, DecidableEq

/-- Error type of `prepare`; the code constructs only `Unexpected`. -/
inductive StatementPrepareError
  | unexpected (msg : String)
deriving Repr, DecidableEq

/-- Error type of `exec`; the code constructs only `Unexpected`. -/
inductive PreparedStatementExecError
  | unexpected (msg : String)
deriving Repr, DecidableEq

/-- The spec's `PoolUnavailable` error as `do_query` reports it
(lib.rs line 96): the message built when no pool exists for the source. -/
def queryPoolUnavailableMsg (sourceId : String) : String :=
  "missing connection pool for source [" ++ sourceId ++ "] while querying"

/-- The spec's `StatementNotFound` error as `do_statement_execute` reports it
(lib.rs line 158): the message built when the token is not in the registry. -/
def statementNotFoundMsg (statementToken : String) : String :=
  "missing prepared statement with statement ID [" ++ statementToken ++ "]"

/-- The spec's `PoolUnavailable` error as `do_statement_execute` reports it
(lib.rs line 165): the owning source's pool is gone. -/
def execPoolUnavailableMsg (connectionToken statementToken : String) : String :=
  "missing connection pool for token [" ++ connectionToken ++
    "], statement ID [" ++ statementToken ++ "]"

/-- Modelled from the spec: `ConnectionCreateOptions` lives in the
provider's `config` module, which is outside `src/`.  Per spec section 4.1
the record carries "host, port, credentials, database name, an
encryption-required flag, and pool sizing bounds"; `tls_required` is the
field `ensure_pool` reads. -/
structure ConnectionCreateOptions where
  host : String
  port : Nat
  username : String
  password : String
  database : String
  tlsRequired : Bool
  poolSize : Option Nat
deriving Repr, DecidableEq

/-- The provider's shared state (`PostgresProvider` struct, lib.rs lines
32-38), with two bookkeeping counters realising object identity:
`poolCounter` names each pool built by the factory, `ulidCounter` feeds the
fresh-token supply (see `mkUlid`). -/
structure ProviderState where
  /-- `connections`: database connection pools indexed by source ID. -/
  connections : List (String × Nat)
  /-- `prepared_statements`: token -> (statement, source ID that prepared it). -/
  preparedStatements : List (String × (Nat × String))
  /-- Identity supply for pools built so far (counts factory calls). -/
  poolCounter : Nat
  /-- Identity supply for generated statement tokens. -/
  ulidCounter : Nat
deriving Repr, DecidableEq

/-- The freshly started provider: `PostgresProvider::default()`. -/
def initialState : ProviderState :=
  { connections := [], preparedStatements := [], poolCounter := 0, ulidCounter := 0 }

/-- `create_tls_pool` when the crate is compiled without the `rustls`
feature (lib.rs lines 304-310): unconditionally
`bail!("cannot build TLS connections without rustls feature")`.  With the
feature on (lines 288-302) construction of the permissive-TLS pool is
modelled as succeeding and returns the supplied fresh pool identity. -/
def create_tls_pool (rustlsEnabled : Bool) (poolId : Nat) : Except String Nat :=
  if rustlsEnabled then .ok poolId
  else .error "cannot build TLS connections without rustls feature"

/-- The pool-construction step of `ensure_pool` (lib.rs lines 70-79):
TLS-required configurations go through `create_tls_pool`, the rest through
`cfg.create_pool(runtime, NoTls)`, modelled as succeeding with the supplied
fresh pool identity. -/
def buildPool (rustlsEnabled : Bool) (opts : ConnectionCreateOptions)
    (poolId : Nat) : Except String Nat :=
  if opts.tlsRequired then create_tls_pool rustlsEnabled poolId
  else .ok poolId

/-- `PostgresProvider::ensure_pool` (lib.rs lines 57-85), run sequentially:
return early if a pool for `source_id` is already present, otherwise build a
pool and insert it.  The returned state is the provider state after the
call; `.error` reproduces the `?` early return, which happens before the
insert. -/
def ensure_pool (rustlsEnabled : Bool) (st : ProviderState) (source_id : String)
    (create_opts : ConnectionCreateOptions) : ProviderState × Except String Unit :=
  if (mapGet st.connections source_id).isSome then (st, .ok ())
  else
    match buildPool rustlsEnabled create_opts st.poolCounter with
    | .error e => (st, .error e)
    | .ok pool =>
        ({ st with connections := mapInsert source_id pool st.connections,
                   poolCounter := st.poolCounter + 1 }, .ok ())

/-- `PostgresProvider::do_query` (lib.rs lines 88-116).  Backend I/O is
abstracted: `poolGet` models `pool.get()` (checking a client out of the
identified pool) and `clientQuery` models `client.query_raw` followed by the
row collection/conversion of lines 112-115; an oracle `.error` feeds the
corresponding `map_err` branch.  The registry logic — resolve the pool for
`source_id`, failing with the pool-unavailable message when absent — is the
code's. -/
def do_query (st : ProviderState) (poolGet : Nat → Except String Nat)
    (clientQuery : Nat → String → List PgValue → Except String (List ResultRow))
    (source_id query : String) (params : List PgValue) :
    Except QueryError (List ResultRow) :=
  match mapGet st.connections source_id with
  | none => .error (.unexpected (queryPoolUnavailableMsg source_id))
  | some pool =>
      match poolGet pool with
      | .error e => .error (.unexpected ("failed to build client from pool: " ++ e))
      | .ok client =>
          match clientQuery client query params with
          | .error e => .error (.unexpected ("failed to perform query: " ++ e))
          | .ok rows => .ok rows

/-- Modelled from the spec: the token's random component.  The code draws
`Ulid::new().to_string()` from the external `ulid` crate; the spec promises
tokens "globally unique for the process lifetime", so the generator is
embedded as an injective fresh-name supply indexed by `ulidCounter` (the
string content is irrelevant to every claim, only distinctness is used). -/
def mkUlid (n : Nat) : String :=
  String.mk (List.replicate n 'z')

/-- The token minted by `do_statement_prepare` (lib.rs line 139):
`format!("prepared-statement-{}", Ulid::new())`. -/
def mkStatementToken (n : Nat) : String :=
  "prepared-statement-" ++ mkUlid n

/-- `PostgresProvider::do_statement_prepare` (lib.rs lines 119-148): resolve
the caller's pool (the Rust parameter is named `connection_token`; it is the
source id), check out a client (`poolGet`), ask the backend to parse the
query (`clientPrepare`, modelling `client.prepare`; an `.ok` carries the
statement's identity), then mint a fresh token and record
`(statement, connection_token)` in the statement registry. -/
def do_statement_prepare (st : ProviderState) (poolGet : Nat → Except String Nat)
    (clientPrepare : Nat → String → Except String Nat)
    (connection_token query : String) :
    ProviderState × Except StatementPrepareError String :=
  match mapGet st.connections connection_token with
  | none =>
      (st, .error (.unexpected
        ("failed to find connection pool for token [" ++ connection_token ++ "]")))
  | some pool =>
      match poolGet pool with
      | .error e =>
          (st, .error (.unexpected ("failed to build client from pool: " ++ e)))
      | .ok client =>
          match clientPrepare client query with
          | .error e =>
              (st, .error (.unexpected ("failed to prepare query: " ++ e)))
          | .ok statement =>
              let statement_token := mkStatementToken st.ulidCounter
              ({ st with
                  preparedStatements :=
                    mapInsert statement_token (statement, connection_token)
                      st.preparedStatements,
                  ulidCounter := st.ulidCounter + 1 },
               .ok statement_token)

/-- `PostgresProvider::do_statement_execute` (lib.rs lines 151-180): resolve
the statement by token, then resolve the pool of the *owning* source
recorded with the statement, check out a client and run it (`clientExec`
models `client.execute_raw`, returning the affected-row count). -/
def do_statement_execute (st : ProviderState) (poolGet : Nat → Except String Nat)
    (clientExec : Nat → Nat → List PgValue → Except String Nat)
    (statement_token : String) (params : List PgValue) :
    Except PreparedStatementExecError Nat :=
  match mapGet st.preparedStatements statement_token with
  | none => .error (.unexpected (statementNotFoundMsg statement_token))
  | some (statement, connection_token) =>
      match mapGet st.connections connection_token with
      | none =>
          .error (.unexpected (execPoolUnavailableMsg connection_token statement_token))
      | some pool =>
          match poolGet pool with
          | .error e =>
              .error (.unexpected ("failed to build client from pool: " ++ e))
          | .ok client =>
              match clientExec client statement params with
              | .error e =>
                  .error (.unexpected
                    ("failed to execute prepared statement with token [" ++
                      statement_token ++ "]: " ++ e))
              | .ok rows_affected => .ok rows_affected

/-- Phase one of `delete_link` (lib.rs lines 215-217): under the statement
registry's write lock, retain exactly the statements whose recorded owner
differs from `source_id`. -/
def removeStatementsOwnedBy (st : ProviderState) (source_id : String) : ProviderState :=
  { st with preparedStatements :=
      st.preparedStatements.filter (fun p => decide (p.2.2 ≠ source_id)) }

/-- Phase two of `delete_link` (lib.rs lines 218-219): remove the source's
pool from the connection registry. -/
def removePoolOf (st : ProviderState) (source_id : String) : ProviderState :=
  { st with connections := st.connections.filter (fun p => decide (p.1 ≠ source_id)) }

/-- `PostgresProvider::delete_link` (lib.rs lines 214-222): first drop the
statements owned by the departing source, then its pool; always `Ok(())`. -/
def delete_link (st : ProviderState) (source_id : String) :
    ProviderState × Except String Unit :=
  (removePoolOf (removeStatementsOwnedBy st source_id) source_id, .ok ())

/-- `PostgresProvider::shutdown` (lib.rs lines 226-232): drain both
registries; always `Ok(())`. -/
def shutdown (st : ProviderState) : ProviderState × Except String Unit :=
  ({ st with connections := [], preparedStatements := [] }, .ok ())

/-- Decimal string parsing (`str::parse::<usize>` on the Rust side),
written over the character list so it evaluates by kernel reduction. -/
def strToNat? (s : String) : Option Nat :=
  if s.data ≠ [] && s.data.all Char.isDigit then
    some (s.data.foldl (fun n c => n * 10 + (c.toNat - 48)) 0)
  else none

/-- Modelled from the spec: `parse_prefixed_config_from_map` lives in the
provider's `config` module, which is outside `src/`.  Spec sections 4.4 and
6: filter the raw string map for keys carrying the recognized key marker;
when no key carries it, return nothing (the no-database state); otherwise
parse the values into a `ConnectionCreateOptions` record. -/
def parse_prefixed_config_from_map (keyPre : String)
    (config : List (String × String)) : Option ConnectionCreateOptions :=
  if config.all (fun p => !keyPre.data.isPrefixOf p.1.data) then none
  else
    let lookupOr := fun (k d : String) => ((mapGet config (keyPre ++ k)).getD d)
    some { host := lookupOr "HOST" ""
           port := (strToNat? (lookupOr "PORT" "5432")).getD 5432
           username := lookupOr "USERNAME" ""
           password := lookupOr "PASSWORD" ""
           database := lookupOr "DATABASE" ""
           tlsRequired := lookupOr "TLS_REQUIRED" "false" == "true"
           poolSize := strToNat? (lookupOr "POOL_SIZE" "") }

/-- `PostgresProvider::receive_link_config_as_target` (lib.rs lines
189-208): parse a `POSTGRES_`-prefixed configuration off the link; absence
is logged and the call returns `Ok(())` untouched.  Otherwise call
`ensure_pool`; an `ensure_pool` failure is logged and swallowed and the
call still returns `Ok(())`. -/
def receive_link_config_as_target (rustlsEnabled : Bool) (st : ProviderState)
    (source_id : String) (config : List (String × String)) :
    ProviderState × Except String Unit :=
  match parse_prefixed_config_from_map "POSTGRES_" config with
  | none => (st, .ok ())
  | some db_cfg => ((ensure_pool rustlsEnabled st source_id db_cfg).1, .ok ())

/-- Modelled from the spec: the request `Context` arriving from the wasmCloud
provider SDK (outside `src/`); the handlers read only its `component` field,
the caller's source identity, which may be absent. -/
structure Context where
  component : Option String
deriving Repr, DecidableEq

/-- `bindings::query::Handler::query` (lib.rs lines 238-255): a request with
no context or no source component is answered with the in-band
`QueryError::Unexpected("unexpectedly missing source ID")` inside an outer
`Ok`; otherwise the call is `do_query` for the caller's source id.  `query`
only reads state, so no state is returned. -/
def handler_query (st : ProviderState) (poolGet : Nat → Except String Nat)
    (clientQuery : Nat → String → List PgValue → Except String (List ResultRow))
    (ctx : Option Context) (query : String) (params : List PgValue) :
    Except String (Except QueryError (List ResultRow)) :=
  match ctx with
  | some { component := some source_id } =>
      .ok (do_query st poolGet clientQuery source_id query params)
  | _ => .ok (.error (.unexpected "unexpectedly missing source ID"))

/-- `bindings::prepared::Handler::prepare` (lib.rs lines 261-276): same
missing-identity guard as `query`; otherwise `do_statement_prepare`, whose
updated state is threaded through. -/
def handler_prepare (st : ProviderState) (poolGet : Nat → Except String Nat)
    (clientPrepare : Nat → String → Except String Nat)
    (ctx : Option Context) (query : String) :
    ProviderState × Except String (Except StatementPrepareError String) :=
  match ctx with
  | some { component := some source_id } =>
      let r := do_statement_prepare st poolGet clientPrepare source_id query
      (r.1, .ok r.2)
  | _ => (st, .ok (.error (.unexpected "unexpectedly missing source ID")))

/-- `bindings::prepared::Handler::exec` (lib.rs lines 278-285): the context
is bound as `_ctx` and never consulted; the call is `do_statement_execute`
on the token alone. -/
def handler_exec (st : ProviderState) (poolGet : Nat → Except String Nat)
    (clientExec : Nat → Nat → List PgValue → Except String Nat)
    (ctx : Option Context) (statement_token : String) (params : List PgValue) :
    Except String (Except PreparedStatementExecError Nat) :=
  let _ctx := ctx
  .ok (do_statement_execute st poolGet clientExec statement_token params)

/-!  Interleaving model of concurrent `ensure_pool` calls.

`ensure_pool` holds the registry's read lock only for the existence check
(lib.rs lines 63-68), builds the pool with no lock held (lines 70-79), and
holds the write lock only for the insert (lines 82-83).  Each of those three
lock-delimited sections is one atomic step of a task; the write section of
the code inserts without re-checking existence, and the model mirrors that
exactly. -/

/-- Where one `ensure_pool` call stands: before its read-lock existence
check; past the check (pool absent) and about to build; holding a built pool
(identified by the counter value it drew) and about to insert; or done. -/
inductive EnsurePhase
  | checking
  | toBuild
  | toInsert (pool : Nat)
  | finished
deriving Repr, DecidableEq

/-- Shared state of the race: the connection registry, the pool-identity
counter (counting pools built by the factory so far), and the phase of each
of two tasks A and B, both running `ensure_pool` for the same source with
the same valid non-TLS configuration (so pool construction succeeds). -/
structure RaceState where
  connections : List (String × Nat)
  poolCounter : Nat
  taskA : EnsurePhase
  taskB : EnsurePhase
deriving Repr, DecidableEq

/-- Both tasks poised at their read-lock check over an empty registry. -/
def raceInit : RaceState :=
  { connections := [], poolCounter := 0, taskA := .checking, taskB := .checking }

/-- One atomic step of one `ensure_pool` task: the read-lock check (early
`Ok` return when a pool is present, lib.rs lines 63-68), the lock-free pool
construction (drawing a fresh pool identity), or the write-lock insert
(lib.rs lines 82-83 — an unconditional `HashMap::insert`, with no second
existence check). -/
def stepEnsure (source_id : String) (conns : List (String × Nat))
    (counter : Nat) (ph : EnsurePhase) :
    List (String × Nat) × Nat × EnsurePhase :=
  match ph with
  | .checking =>
      if (mapGet conns source_id).isSome then (conns, counter, .finished)
      else (conns, counter, .toBuild)
  | .toBuild => (conns, counter + 1, .toInsert counter)
  | .toInsert pool => (mapInsert source_id pool conns, counter, .finished)
  | .finished => (conns, counter, .finished)

/-- Scheduler step: `true` runs task A, `false` runs task B. -/
def stepRace (source_id : String) (st : RaceState) (runA : Bool) : RaceState :=
  if runA then
    let r := stepEnsure source_id st.connections st.poolCounter st.taskA
    { st with connections := r.1, poolCounter := r.2.1, taskA := r.2.2 }
  else
    let r := stepEnsure source_id st.connections st.poolCounter st.taskB
    { st with connections := r.1, poolCounter := r.2.1, taskB := r.2.2 }

/-- Run a schedule (a list of scheduler choices) from a race state. -/
def runRace (source_id : String) (st : RaceState) : List Bool → RaceState
  | [] => st
  | b :: rest => runRace source_id (stepRace source_id st b) rest

/-- The interleaving in which both tasks pass the read-lock absence check
before either inserts: A checks, B checks, A builds and inserts, then B
builds and inserts. -/
def raceSchedule : List Bool := [true, false, true, true, false, false]

/-! Registry lemmas: how `mapGet` interacts with `mapInsert` and with the
`filter`-based removals (`HashMap::remove`, `HashMap::retain`). -/

theorem mapGet_cons {α : Type} (a : String × α) (m : List (String × α)) (k : String) :
    mapGet (a :: m) k = if a.1 = k then some a.2 else mapGet m k := by
  by_cases h : a.1 = k <;> simp [mapGet, List.find?_cons, h]

theorem mapGet_eq_none_of_forall {α : Type} {m : List (String × α)} {k : String}
    (h : ∀ p ∈ m, p.1 ≠ k) : mapGet m k = none := by
  induction m with
  | nil => rfl
  | cons a tl ih =>
      rw [mapGet_cons, if_neg (h a (by simp))]
      exact ih fun p hp => h p (by simp [hp])

theorem mapGet_mapInsert_self {α : Type} (k : String) (v : α) (m : List (String × α)) :
    mapGet (mapInsert k v m) k = some v := by
  simp [mapInsert, mapGet_cons]

theorem mapGet_remove_self {α : Type} (m : List (String × α)) (k : String) :
    mapGet (m.filter (fun p => decide (p.1 ≠ k))) k = none := by
  refine mapGet_eq_none_of_forall fun p hp => ?_
  have := List.of_mem_filter hp
  simpa using this

theorem mapGet_filter_key_ne {α : Type} (m : List (String × α)) {k q : String}
    (f : String × α → Bool) (hf : ∀ p, f p = decide (p.1 ≠ k)) (hq : q ≠ k) :
    mapGet (m.filter f) q = mapGet m q := by
  induction m with
  | nil => rfl
  | cons a tl ih =>
      by_cases hak : a.1 = k
      · have : f a = false := by simp [hf, hak]
        rw [List.filter_cons_of_neg (by simp [this]), ih, mapGet_cons,
          if_neg (by rw [hak]; exact fun h => hq h.symm)]
      · have : f a = true := by simp [hf, hak]
        rw [List.filter_cons_of_pos this, mapGet_cons, mapGet_cons, ih]

theorem mapGet_filter_of_kept {α : Type} {m : List (String × α)} {t : String}
    {v : α} (f : String × α → Bool)
    (hget : mapGet m t = some v) (hkeep : f (t, v) = true) :
    mapGet (m.filter f) t = some v := by
  induction m with
  | nil => simp [mapGet] at hget
  | cons a tl ih =>
      rw [mapGet_cons] at hget
      by_cases hat : a.1 = t
      · rw [if_pos hat] at hget
        have hav : a = (t, v) := by
          cases a; cases hget; cases hat; rfl
        rw [hav, List.filter_cons_of_pos hkeep, mapGet_cons, if_pos rfl]
      · rw [if_neg hat] at hget
        by_cases hfa : f a = true
        · rw [List.filter_cons_of_pos hfa, mapGet_cons, if_neg hat]
          exact ih hget
        · rw [List.filter_cons_of_neg (by simpa using hfa)]
          exact ih hget

theorem mapGet_filter_of_dropped {α : Type} {m : List (String × α)} {t : String}
    {v : α} (f : String × α → Bool)
    (hnd : KeysNodup m) (hget : mapGet m t = some v) (hdrop : f (t, v) = false) :
    mapGet (m.filter f) t = none := by
  induction m with
  | nil => simp [mapGet] at hget
  | cons a tl ih =>
      rw [mapGet_cons] at hget
      have hnd' : KeysNodup tl := (List.nodup_cons.mp hnd).2
      by_cases hat : a.1 = t
      · rw [if_pos hat] at hget
        have hav : a = (t, v) := by
          cases a; cases hget; cases hat; rfl
        rw [hav, List.filter_cons_of_neg (by simpa using hdrop)]
        refine mapGet_eq_none_of_forall fun p hp => ?_
        have hmem : p.1 ∈ tl.map (fun p => p.1) :=
          List.mem_map.mpr ⟨p, List.mem_of_mem_filter hp, rfl⟩
        have hnotin := (List.nodup_cons.mp hnd).1
        intro hpt
        rw [hav] at hnotin
        exact hnotin (hpt ▸ hmem)
      · rw [if_neg hat] at hget
        by_cases hfa : f a = true
        · rw [List.filter_cons_of_pos hfa, mapGet_cons, if_neg hat]
          exact ih hnd' hget
        · rw [List.filter_cons_of_neg (by simpa using hfa)]
          exact ih hnd' hget

theorem mkUlid_injective : Function.Injective mkUlid := by
  intro a b h
  have := congrArg String.length h
  simpa [mkUlid] using this

theorem mkStatementToken_injective : Function.Injective mkStatementToken := by
  intro a b h
  apply mkUlid_injective
  apply String.ext
  have hd := congrArg String.data h
  simpa [mkStatementToken, String.data_append] using hd

/-- Every token in the statement registry was minted by an earlier draw of
the fresh-token supply: the reachable-state invariant tying `ulidCounter`
to the registry's contents. -/
def TokenInvariant (st : ProviderState) : Prop :=
  ∀ p ∈ st.preparedStatements, ∃ k, k < st.ulidCounter ∧ p.1 = mkStatementToken k

theorem mapGet_next_token_eq_none {st : ProviderState} (hinv : TokenInvariant st) :
    mapGet st.preparedStatements (mkStatementToken st.ulidCounter) = none := by
  refine mapGet_eq_none_of_forall fun p hp => ?_
  obtain ⟨k, hk, hpk⟩ := hinv p hp
  rw [hpk]
  intro h
  exact absurd (mkStatementToken_injective h) (Nat.ne_of_lt hk)

theorem ensure_pool_error_state_eq {r : Bool} {st : ProviderState} {sid : String}
    {opts : ConnectionCreateOptions} {e : String}
    (h : (ensure_pool r st sid opts).2 = .error e) :
    ensure_pool r st sid opts = (st, .error e) := by
  unfold ensure_pool at h ⊢
  by_cases hc : (mapGet st.connections sid).isSome
  · simp [hc] at h
  · rw [if_neg hc] at h ⊢
    cases hb : buildPool r opts st.poolCounter <;> simp_all

/-! Concrete fixtures used by witness theorems: backend oracles that always
succeed, a sample configuration, and small provider states. -/

/-- Backend oracle: every pool checkout yields client `0`. -/
def okPoolGet : Nat → Except String Nat := fun _ => .ok 0

/-- Backend oracle: every query returns no rows. -/
def okClientQuery : Nat → String → List PgValue → Except String (List ResultRow) :=
  fun _ _ _ => .ok []

/-- Backend oracle: every prepare yields statement `7`. -/
def okClientPrepare : Nat → String → Except String Nat := fun _ _ => .ok 7

/-- Backend oracle: every statement execution affects one row. -/
def okClientExec : Nat → Nat → List PgValue → Except String Nat := fun _ _ _ => .ok 1

/-- A valid plaintext connection configuration. -/
def sampleOpts : ConnectionCreateOptions :=
  { host := "db", port := 5432, username := "u", password := "p",
    database := "app", tlsRequired := false, poolSize := none }

/-- The same configuration with transport encryption required. -/
def sampleTlsOpts : ConnectionCreateOptions :=
  { sampleOpts with tlsRequired := true }

/-- A state holding a pool for source `alice` and no statements yet. -/
def aliceNoStmtState : ProviderState :=
  { connections := [("alice", 0)], preparedStatements := [],
    poolCounter := 1, ulidCounter := 0 }

/-- `aliceNoStmtState` after `alice` prepared one statement (token
`mkStatementToken 0`, which is the bare token string with an empty random
component). -/
def aliceState : ProviderState :=
  { connections := [("alice", 0)],
    preparedStatements := [("prepared-statement-", (7, "alice"))],
    poolCounter := 1, ulidCounter := 1 }

/-- A state in which a statement owned by `alice` survives but `alice`'s
pool is gone. -/
def orphanStmtState : ProviderState :=
  { connections := [],
    preparedStatements := [("prepared-statement-", (7, "alice"))],
    poolCounter := 1, ulidCounter := 1 }

/-- Two attached sources, each with a pool and one prepared statement. -/
def twoSourceState : ProviderState :=
  { connections := [("alice", 0), ("bob", 1)],
    preparedStatements :=
      [("prepared-statement-", (7, "alice")), ("prepared-statement-z", (8, "bob"))],
    poolCounter := 2, ulidCounter := 2 }

/-! Claim theorems. -/

/-- Claim C1, refuted (the code lacks the re-check the claim describes):
running two concurrent `ensure_pool` calls for source `"S"` with the same
valid configuration under the interleaving `raceSchedule` — A passes the
read-lock absence check, B passes it too, A builds pool `0` and inserts it,
then B builds pool `1` and inserts it — ends with both calls finished,
`poolCounter = 2` (two pools were created, not one), and the registry
holding pool `1`, even though after A's insert a lookup returned pool `0`:
the second caller replaced the first caller's pool, so later lookups do not
return the first pool instance. -/
theorem ensure_pool_race_two_pools_replaced :
    (runRace "S" raceInit [true, false, true, true]).connections = [("S", 0)] ∧
    (runRace "S" raceInit raceSchedule).connections = [("S", 1)] ∧
    (runRace "S" raceInit raceSchedule).poolCounter = 2 ∧
    (runRace "S" raceInit raceSchedule).taskA = EnsurePhase.finished ∧
    (runRace "S" raceInit raceSchedule).taskB = EnsurePhase.finished := by
  decide

/-- Claim C5: `shutdown` empties both registries, returns `Ok(())`
unconditionally on any prior state, and is idempotent — running it again
from the state it produced yields the same state and the same success. -/
theorem shutdown_clears_everything_idempotent (st : ProviderState) :
    (shutdown st).1.connections = [] ∧
    (shutdown st).1.preparedStatements = [] ∧
    (shutdown st).2 = .ok () ∧
    shutdown (shutdown st).1 = shutdown st := by
  simp [shutdown]

/-- Claim C7: with the configuration requiring TLS and the crate compiled
without the `rustls` feature, `ensure_pool` (when no pool is present yet)
returns the configuration error from `create_tls_pool` and leaves the state
— in particular the pool registry — unchanged: no entry is inserted. -/
theorem ensure_pool_tls_without_rustls_fails_no_insert (st : ProviderState)
    (sid : String) (opts : ConnectionCreateOptions)
    (htls : opts.tlsRequired = true)
    (habs : mapGet st.connections sid = none) :
    ensure_pool false st sid opts =
      (st, .error "cannot build TLS connections without rustls feature") := by
  simp [ensure_pool, habs, buildPool, htls, create_tls_pool]

/-- Witness for C7: the fresh provider, source `alice`, TLS-required
configuration. -/
theorem ensure_pool_tls_without_rustls_fails_no_insert_witness :
    ensure_pool false initialState "alice" sampleTlsOpts =
      (initialState, .error "cannot build TLS connections without rustls feature") :=
  ensure_pool_tls_without_rustls_fails_no_insert initialState "alice" sampleTlsOpts
    (by decide) (by decide)

/-- Claim C8: `ensure_pool` is idempotent.  When a pool for `source_id` is
already registered the call returns success and the state — hence the
registered pool instance — is untouched; and a second sequential call
right after any first call reproduces the first call's outcome exactly, so
two sequential calls leave the same state as one. -/
theorem ensure_pool_idempotent (r : Bool) (st : ProviderState) (sid : String)
    (opts : ConnectionCreateOptions) :
    (∀ pool, mapGet st.connections sid = some pool →
      ensure_pool r st sid opts = (st, .ok ())) ∧
    ensure_pool r (ensure_pool r st sid opts).1 sid opts =
      ensure_pool r st sid opts := by
  constructor
  · intro pool hp
    simp [ensure_pool, hp]
  · by_cases hc : (mapGet st.connections sid).isSome
    · simp [ensure_pool, hc]
    · cases hb : buildPool r opts st.poolCounter with
      | error e => simp [ensure_pool, hc, hb]
      | ok pool =>
          have h1 : ensure_pool r st sid opts =
              ({ st with connections := mapInsert sid pool st.connections,
                         poolCounter := st.poolCounter + 1 }, .ok ()) := by
            simp [ensure_pool, hc, hb]
          rw [h1]
          simp [ensure_pool, mapGet_mapInsert_self]

/-- Witness for C8: `alice` already holds pool `0`, so `ensure_pool` is a
successful no-op. -/
theorem ensure_pool_idempotent_witness :
    ensure_pool true aliceState "alice" sampleOpts = (aliceState, .ok ()) :=
  (ensure_pool_idempotent true aliceState "alice" sampleOpts).1 0 (by decide)

/-- Claim C2: for any token the statement registry records as owned by
source `S`, after `delete_link S` (the embedding of `source_detached`) an
`execute` of that token fails with the statement-not-found error (the token
was removed from the registry — one of the two failures the claim allows),
and a `query` as `S` fails with the pool-unavailable error (no pool entry
for `S` remains).  `KeysNodup` is the `HashMap` representation invariant:
one binding per token. -/
theorem detach_invalidates_tokens_and_pool (st : ProviderState) (S T : String)
    (stmt : Nat) (pg pg2 : Nat → Except String Nat)
    (ce : Nat → Nat → List PgValue → Except String Nat)
    (cq : Nat → String → List PgValue → Except String (List ResultRow))
    (q : String) (params params2 : List PgValue)
    (hnd : KeysNodup st.preparedStatements)
    (hT : mapGet st.preparedStatements T = some (stmt, S)) :
    do_statement_execute (delete_link st S).1 pg ce T params =
      .error (.unexpected (statementNotFoundMsg T)) ∧
    do_query (delete_link st S).1 pg2 cq S q params2 =
      .error (.unexpected (queryPoolUnavailableMsg S)) := by
  constructor
  · have hnone : mapGet (delete_link st S).1.preparedStatements T = none :=
      mapGet_filter_of_dropped _ hnd hT (by simp)
    simp [do_statement_execute, hnone]
  · have hnone : mapGet (delete_link st S).1.connections S =
        mapGet ((removeStatementsOwnedBy st S).connections.filter
          (fun p => decide (p.1 ≠ S))) S := rfl
    rw [mapGet_remove_self] at hnone
    simp [do_query, hnone]

/-- Witness for C2: detaching `alice` invalidates her token and her pool. -/
theorem detach_invalidates_tokens_and_pool_witness :
    do_statement_execute (delete_link aliceState "alice").1 okPoolGet okClientExec
      "prepared-statement-" [] =
      .error (.unexpected (statementNotFoundMsg "prepared-statement-")) ∧
    do_query (delete_link aliceState "alice").1 okPoolGet okClientQuery
      "alice" "SELECT 1" [] =
      .error (.unexpected (queryPoolUnavailableMsg "alice")) :=
  detach_invalidates_tokens_and_pool aliceState "alice" "prepared-statement-" 7
    okPoolGet okPoolGet okClientExec okClientQuery "SELECT 1" [] []
    (by decide) (by decide)

/-- Claim C3: the result of `exec` does not depend on the caller's
identity — the handler binds the context as `_ctx` and never consults it,
so any two callers invoking it on the same token, parameters and state get
identical behaviour; and the pool is resolved from the statement's recorded
owning source (when the owner's pool is gone the call fails with the
owner's pool-unavailable error, whoever the caller is). -/
theorem exec_ignores_caller_identity (st : ProviderState)
    (pg : Nat → Except String Nat)
    (ce : Nat → Nat → List PgValue → Except String Nat)
    (ctx1 ctx2 : Option Context) (T : String) (params : List PgValue)
    (stmt : Nat) (owner : String) :
    handler_exec st pg ce ctx1 T params = handler_exec st pg ce ctx2 T params ∧
    (mapGet st.preparedStatements T = some (stmt, owner) →
      mapGet st.connections owner = none →
      handler_exec st pg ce ctx1 T params =
        .ok (.error (.unexpected (execPoolUnavailableMsg owner T)))) := by
  refine ⟨rfl, fun hT hconn => ?_⟩
  simp [handler_exec, do_statement_execute, hT, hconn]

/-- Witness for C3: a caller distinct from owner `alice` (and a caller with
no identity at all) observe the same outcome on `alice`'s token, and the
failure names `alice`'s missing pool, not the caller. -/
theorem exec_ignores_caller_identity_witness :
    handler_exec orphanStmtState okPoolGet okClientExec none
      "prepared-statement-" [] =
      handler_exec orphanStmtState okPoolGet okClientExec
        (some { component := some "mallory" }) "prepared-statement-" [] ∧
    handler_exec orphanStmtState okPoolGet okClientExec none
      "prepared-statement-" [] =
      .ok (.error (.unexpected (execPoolUnavailableMsg "alice" "prepared-statement-"))) :=
  ⟨(exec_ignores_caller_identity orphanStmtState okPoolGet okClientExec none
      (some { component := some "mallory" }) "prepared-statement-" [] 7 "alice").1,
   (exec_ignores_caller_identity orphanStmtState okPoolGet okClientExec none
      (some { component := some "mallory" }) "prepared-statement-" [] 7 "alice").2
     (by decide) (by decide)⟩

/-- Claim C4: a successful `do_statement_prepare` returns a token carrying
the fixed `prepared-statement-` marker, distinct from every token in the
statement registry before the call (given the fresh-supply invariant tying
the registry to `ulidCounter`), and the updated registry maps the token to
the prepared statement paired with exactly the caller's source identity. -/
theorem prepare_token_fresh_prefixed_owned (st st' : ProviderState)
    (pg : Nat → Except String Nat) (cp : Nat → String → Except String Nat)
    (src q token : String)
    (hinv : TokenInvariant st)
    (h : do_statement_prepare st pg cp src q = (st', .ok token)) :
    (∃ rest, token = "prepared-statement-" ++ rest) ∧
    mapGet st.preparedStatements token = none ∧
    (∃ stmt, mapGet st'.preparedStatements token = some (stmt, src)) := by
  unfold do_statement_prepare at h
  split at h
  · simp at h
  · split at h
    · simp at h
    · split at h
      · simp at h
      · rename_i statement hp
        simp only [Prod.mk.injEq, Except.ok.injEq] at h
        obtain ⟨hst, htok⟩ := h
        refine ⟨⟨mkUlid st.ulidCounter, htok.symm⟩, ?_, ?_⟩
        · rw [← htok]
          exact mapGet_next_token_eq_none hinv
        · refine ⟨statement, ?_⟩
          rw [← hst, ← htok]
          exact mapGet_mapInsert_self _ _ _

/-- Witness for C4: `alice` prepares a statement on the fresh provider
state that already holds her pool; the minted token (empty random
component) is markered, absent before, and recorded with owner `alice`. -/
theorem prepare_token_fresh_prefixed_owned_witness :
    (∃ rest, "prepared-statement-" = "prepared-statement-" ++ rest) ∧
    mapGet aliceNoStmtState.preparedStatements "prepared-statement-" = none ∧
    (∃ stmt, mapGet aliceState.preparedStatements "prepared-statement-" =
      some (stmt, "alice")) :=
  prepare_token_fresh_prefixed_owned aliceNoStmtState aliceState okPoolGet
    okClientPrepare "alice" "SELECT 1" "prepared-statement-"
    (by intro p hp; simp [aliceNoStmtState] at hp) rfl

/-- Claim C6: `receive_link_config_as_target` (the embedding of
`source_attached`) always answers `Ok(())`; when no key carries the
`POSTGRES_` marker it is a pure no-op on the state, and when keys are
present but `ensure_pool` fails, the error is swallowed, the state is the
(unchanged) state the failing `ensure_pool` left, and the call still
reports success. -/
theorem source_attached_always_reports_ok (r : Bool) (st : ProviderState)
    (sid : String) (config : List (String × String)) :
    (receive_link_config_as_target r st sid config).2 = .ok () ∧
    (parse_prefixed_config_from_map "POSTGRES_" config = none →
      receive_link_config_as_target r st sid config = (st, .ok ())) ∧
    (∀ cfg e, parse_prefixed_config_from_map "POSTGRES_" config = some cfg →
      (ensure_pool r st sid cfg).2 = .error e →
      receive_link_config_as_target r st sid config = (st, .ok ())) := by
  refine ⟨?_, ?_, ?_⟩
  · unfold receive_link_config_as_target
    cases parse_prefixed_config_from_map "POSTGRES_" config <;> simp
  · intro hnone
    simp [receive_link_config_as_target, hnone]
  · intro cfg e hsome herr
    have hstate := ensure_pool_error_state_eq herr
    simp [receive_link_config_as_target, hsome, hstate]

/-- Witness for C6: a link whose config has no `POSTGRES_` key is a no-op
success; a link demanding TLS on a build without `rustls` still reports
success with no pool inserted. -/
theorem source_attached_always_reports_ok_witness :
    receive_link_config_as_target false initialState "alice" [("OTHER_KEY", "x")] =
      (initialState, .ok ()) ∧
    receive_link_config_as_target false initialState "alice"
      [("POSTGRES_HOST", "db"), ("POSTGRES_TLS_REQUIRED", "true")] =
      (initialState, .ok ()) :=
  ⟨(source_attached_always_reports_ok false initialState "alice"
      [("OTHER_KEY", "x")]).2.1 (by decide),
   (source_attached_always_reports_ok false initialState "alice"
      [("POSTGRES_HOST", "db"), ("POSTGRES_TLS_REQUIRED", "true")]).2.2
     { host := "db", port := 5432, username := "", password := "",
       database := "", tlsRequired := true, poolSize := none }
     "cannot build TLS connections without rustls feature" (by decide) rfl⟩

/-- Claim C9: `delete_link` removes exactly the departing source's state —
it is literally the pool removal composed after the owned-statement
removal (so statements go first, and at the intermediate point the
connection registry is untouched), every pool entry keyed by a different
source still resolves identically, and every statement entry recorded with
a different owner still resolves to the same statement and owner. -/
theorem delete_link_frame_preserving (st : ProviderState) (S : String) :
    delete_link st S = (removePoolOf (removeStatementsOwnedBy st S) S, .ok ()) ∧
    (removeStatementsOwnedBy st S).connections = st.connections ∧
    (∀ k, k ≠ S →
      mapGet (delete_link st S).1.connections k = mapGet st.connections k) ∧
    (∀ t stmt o, o ≠ S → mapGet st.preparedStatements t = some (stmt, o) →
      mapGet (delete_link st S).1.preparedStatements t = some (stmt, o)) := by
  refine ⟨rfl, rfl, fun k hk => ?_, fun t stmt o ho hget => ?_⟩
  · exact mapGet_filter_key_ne st.connections _ (fun p => rfl) hk
  · exact mapGet_filter_of_kept _ hget (by simp [ho])

/-- Witness for C9: detaching `alice` leaves `bob`'s pool and `bob`'s
prepared statement resolvable exactly as before. -/
theorem delete_link_frame_preserving_witness :
    mapGet (delete_link twoSourceState "alice").1.connections "bob" =
      mapGet twoSourceState.connections "bob" ∧
    mapGet (delete_link twoSourceState "alice").1.preparedStatements
      "prepared-statement-z" = some (8, "bob") :=
  ⟨(delete_link_frame_preserving twoSourceState "alice").2.2.1 "bob" (by decide),
   (delete_link_frame_preserving twoSourceState "alice").2.2.2
     "prepared-statement-z" 8 "bob" (by decide) (by decide)⟩

/-- Claim C10: a `query` or `prepare` request arriving without a caller
identity (no context, or a context with no source component) is answered
in-band — the outer handler result is `Ok` wrapping the operation's own
`Unexpected("unexpectedly missing source ID")` error — the provider state
is left unchanged by `prepare`, and neither handler's answer depends on the
registries (the same answer comes from any two states). -/
theorem missing_identity_answered_inband (st st2 : ProviderState)
    (ctx : Option Context) (pg : Nat → Except String Nat)
    (cq : Nat → String → List PgValue → Except String (List ResultRow))
    (cp : Nat → String → Except String Nat)
    (q : String) (params : List PgValue)
    (hctx : ctx = none ∨ ctx = some { component := none }) :
    handler_query st pg cq ctx q params =
      .ok (.error (.unexpected "unexpectedly missing source ID")) ∧
    handler_query st pg cq ctx q params = handler_query st2 pg cq ctx q params ∧
    handler_prepare st pg cp ctx q =
      (st, .ok (.error (.unexpected "unexpectedly missing source ID"))) ∧
    (handler_prepare st pg cp ctx q).2 = (handler_prepare st2 pg cp ctx q).2 := by
  rcases hctx with h | h <;> subst h <;>
    exact ⟨rfl, rfl, rfl, rfl⟩

/-- Witness for C10: a contextless request against a populated state is
answered with the in-band error, identically to the empty state, and the
populated state survives unchanged. -/
theorem missing_identity_answered_inband_witness :
    handler_query aliceState okPoolGet okClientQuery none "SELECT 1" [] =
      .ok (.error (.unexpected "unexpectedly missing source ID")) ∧
    handler_prepare aliceState okPoolGet okClientPrepare none "SELECT 1" =
      (aliceState, .ok (.error (.unexpected "unexpectedly missing source ID"))) :=
  ⟨(missing_identity_answered_inband aliceState initialState none okPoolGet
      okClientQuery okClientPrepare "SELECT 1" [] (Or.inl rfl)).1,
   (missing_identity_answered_inband aliceState initialState none okPoolGet
      okClientQuery okClientPrepare "SELECT 1" [] (Or.inl rfl)).2.2.1⟩

end PostgresProvider
